import Mathlib

/-
  Verification of the session and presence subsystem of sky-now-weather.

  The client session controller is embedded from the frontend auth store
  (the Zustand store created with useAuthStore): its state fields, the
  operations checkAuth, signup, login, logout, connectSocket and
  disconnectSocket, and the socket event handlers registered in
  connectSocket. HTTP request outcomes are passed in explicitly as an
  HttpResult value; side effects (toasts, opened connections, transport
  close events, scheduled reconnection timers) are returned as an explicit
  effect list.
-/

namespace SkyNow

/-- Connection state of a transport socket. -/
inductive ConnState
  | Disconnected
  | Connecting
  | Connected
  deriving DecidableEq, Repr

/-- A transport socket: its handle, the userId query parameter it was opened
with, and its connection state. -/
structure Socket where
  sid : Nat
  userId : Nat
  connState : ConnState
  deriving DecidableEq, Repr

/-- The socket.connected flag: true exactly when the handshake completed. -/
def Socket.connected (s : Socket) : Bool :=
  s.connState == ConnState.Connected

/-- Toast messages surfaced to the user. Server-provided message payloads are
opaque and modelled by a Nat. -/
inductive Msg
  | accountCreated
  | loggedIn
  | loggedOut
  | server (m : Nat)
  | signupFailed
  | loginFailed
  | logoutFailed
  deriving DecidableEq, Repr

/-- The expression err.response.data.message or fallback: the
server-provided message when present, a generic fallback otherwise. -/
def surfaced (msg : Option Nat) (fallback : Msg) : Msg :=
  match msg with
  | some m => Msg.server m
  | none => fallback

/-- Observable side effects of a store operation. -/
inductive Effect
  | toastSuccess (m : Msg)
  | toastError (m : Msg)
  | openConn (sid : Nat)
  | closeEvent (sid : Nat)
  | scheduleReconnect (sid : Nat) (delayMs : Nat)
  deriving DecidableEq, Repr

/-- True for a transport close event. -/
def Effect.isClose : Effect → Bool
  | Effect.toastSuccess _ => false
  | Effect.toastError _ => false
  | Effect.openConn _ => false
  | Effect.closeEvent _ => true
  | Effect.scheduleReconnect _ _ => false

/-- The state of the useAuthStore Zustand store, together with the persisted
credential token (the localStorage slot named token). -/
structure StoreState where
  authUser : Option Nat
  isSigningUp : Bool
  isLoggingIn : Bool
  isUpdatingProfile : Bool
  isCheckingAuth : Bool
  onlineUsers : List Nat
  socket : Option Socket
  token : Option Nat
  deriving DecidableEq, Repr

/-- The initial store state: authUser null, isCheckingAuth true, no socket. -/
def initialState : StoreState :=
  { authUser := none, isSigningUp := false, isLoggingIn := false,
    isUpdatingProfile := false, isCheckingAuth := true, onlineUsers := [],
    socket := none, token := none }

/-- The JS truthiness of get().socket?.connected. -/
def socketConnected (st : StoreState) : Bool :=
  match st.socket with
  | none => false
  | some s => s.connected

/-- Outcome of an HTTP request: success with response data, or failure with
an optional HTTP status and an optional server message. -/
inductive HttpResult (α : Type)
  | ok (data : α)
  | err (status : Option Nat) (msg : Option Nat)
  deriving DecidableEq, Repr

/-- connectSocket: returns without effect if authUser is null or the current
socket is connected; otherwise opens a fresh socket parameterized by the
user id (query userId) and stores it, initially Connecting. -/
def connectSocket (st : StoreState) (fresh : Nat) : StoreState × List Effect :=
  match st.authUser with
  | none => (st, [])
  | some uid =>
      if socketConnected st then (st, [])
      else
        let s : Socket := { sid := fresh, userId := uid, connState := ConnState.Connecting }
        ({ st with socket := some s }, [Effect.openConn fresh])

/-- disconnectSocket: if the socket is connected, disconnect it (one close
event observed by the transport); otherwise do nothing. -/
def disconnectSocket (st : StoreState) : StoreState × List Effect :=
  match st.socket with
  | none => (st, [])
  | some s =>
      if s.connected then
        ({ st with socket := some { s with connState := ConnState.Disconnected } },
         [Effect.closeEvent s.sid])
      else (st, [])

/-- checkAuth: on success sets authUser from the response and calls
connectSocket; on error clears the token when the status is 401 and sets
authUser to null; in both cases finally sets isCheckingAuth to false. -/
def checkAuth (st : StoreState) (res : HttpResult Nat) (fresh : Nat) :
    StoreState × List Effect :=
  match res with
  | HttpResult.ok uid =>
      let p := connectSocket { st with authUser := some uid } fresh
      ({ p.1 with isCheckingAuth := false }, p.2)
  | HttpResult.err status _ =>
      let st1 := if status = some 401 then { st with token := none } else st
      ({ st1 with authUser := none, isCheckingAuth := false }, [])

/-- signup: on success stores the returned token, sets authUser, toasts
success and calls connectSocket; on error only toasts the server message or
a generic fallback; in both cases finally resets isSigningUp. -/
def signup (st : StoreState) (res : HttpResult (Nat × Nat)) (fresh : Nat) :
    StoreState × List Effect :=
  match res with
  | HttpResult.ok (uid, tok) =>
      let p := connectSocket
        { st with isSigningUp := true, token := some tok, authUser := some uid } fresh
      ({ p.1 with isSigningUp := false },
       Effect.toastSuccess Msg.accountCreated :: p.2)
  | HttpResult.err _ msg =>
      ({ st with isSigningUp := false },
       [Effect.toastError (surfaced msg Msg.signupFailed)])

/-- login: on success stores the returned token, sets authUser, toasts
success and calls connectSocket; on error only toasts the server message or
a generic fallback; in both cases finally resets isLoggingIn. -/
def login (st : StoreState) (res : HttpResult (Nat × Nat)) (fresh : Nat) :
    StoreState × List Effect :=
  match res with
  | HttpResult.ok (uid, tok) =>
      let p := connectSocket
        { st with isLoggingIn := true, token := some tok, authUser := some uid } fresh
      ({ p.1 with isLoggingIn := false },
       Effect.toastSuccess Msg.loggedIn :: p.2)
  | HttpResult.err _ msg =>
      ({ st with isLoggingIn := false },
       [Effect.toastError (surfaced msg Msg.loginFailed)])

/-- logout: on success of the server-side invalidation request, clears the
token, sets authUser to null, toasts success and calls disconnectSocket; on
failure of the request, only toasts the error and changes nothing. -/
def logout (st : StoreState) (res : HttpResult Unit) : StoreState × List Effect :=
  match res with
  | HttpResult.ok _ =>
      let p := disconnectSocket { st with token := none, authUser := none }
      (p.1, Effect.toastSuccess Msg.loggedOut :: p.2)
  | HttpResult.err _ msg =>
      (st, [Effect.toastError (surfaced msg Msg.logoutFailed)])

/-- Events delivered to the handlers registered on the socket in
connectSocket. -/
inductive SockEvent
  | connectAck
  | getOnlineUsers (ids : List Nat)
  | disconnectEvt
  | connectError
  deriving DecidableEq, Repr

/-- Marks the stored socket Connected when its handle matches (transport
handshake completion preceding the connect event). -/
def markConnected (st : StoreState) (sid : Nat) : StoreState :=
  match st.socket with
  | none => st
  | some s =>
      if s.sid == sid then
        { st with socket := some { s with connState := ConnState.Connected } }
      else st

/-- Marks the stored socket Disconnected when its handle matches. -/
def markDisconnected (st : StoreState) (sid : Nat) : StoreState :=
  match st.socket with
  | none => st
  | some s =>
      if s.sid == sid then
        { st with socket := some { s with connState := ConnState.Disconnected } }
      else st

/-- Dispatch of socket events to the handlers registered in connectSocket:
connect and disconnect only log (the transport itself flips the connected
flag), getOnlineUsers stores the broadcast list, and connect underscore
error schedules a single reconnection attempt of the same socket after a
fixed 5000 ms delay, touching no store state. -/
def handleSockEvent (st : StoreState) (sid : Nat) (e : SockEvent) :
    StoreState × List Effect :=
  match e with
  | SockEvent.connectAck => (markConnected st sid, [])
  | SockEvent.getOnlineUsers ids => ({ st with onlineUsers := ids }, [])
  | SockEvent.disconnectEvt => (markDisconnected st sid, [])
  | SockEvent.connectError => (st, [Effect.scheduleReconnect sid 5000])

/-- Modelled from the spec: the Server Presence Registry lives in
backend/src/lib/socket.js, which is not present under src (only its importer
backend/src/index.js is). Per the spec, the registry maps each identity to
its live ConnectionRecord, with the single-connection-per-identity overwrite
policy on a duplicate connect. -/
structure ConnectionRecord where
  identity : Nat
  handle : Nat
  deriving DecidableEq, Repr

/-- Modelled from the spec: the registry as a list of records with distinct
identities. -/
abbrev Registry := List ConnectionRecord

/-- Modelled from the spec: the OnlineSet is the key set of the registry. -/
def onlineSet (r : Registry) : List Nat :=
  r.map ConnectionRecord.identity

/-- Modelled from the spec: connect and disconnect events presented to the
registry, each carrying the identity (from the connection query parameter)
and the connection handle. -/
inductive RegEvent
  | conn (identity : Nat) (handle : Nat)
  | disc (identity : Nat) (handle : Nat)
  deriving DecidableEq, Repr

/-- Modelled from the spec: one registry mutation. On connect the record is
inserted, overwriting any record for the same identity; on disconnect the
record is removed iff the closing connection is the one currently on record.
After the mutation the full OnlineSet is recomputed and broadcast. -/
def regStep (r : Registry) (e : RegEvent) : Registry × List Nat :=
  match e with
  | RegEvent.conn i h =>
      let r1 : Registry :=
        (r.filter (fun c => c.identity != i)) ++ [{ identity := i, handle := h }]
      (r1, onlineSet r1)
  | RegEvent.disc i h =>
      let r1 : Registry :=
        r.filter (fun c => !(c.identity == i && c.handle == h))
      (r1, onlineSet r1)

/-- Modelled from the spec: running a sequence of registry events, collecting
after each mutation the registry contents and the broadcast sent. -/
def regRun (r : Registry) : List RegEvent → List (Registry × List Nat)
  | [] => []
  | e :: es => regStep r e :: regRun (regStep r e).1 es

/-- Helper: when an identity is authenticated and the current socket is not
connected, connectSocket opens a fresh Connecting socket for that identity
and stores it. -/
theorem connectSocket_opens (st : StoreState) (uid fresh : Nat)
    (h : st.authUser = some uid) (hc : socketConnected st = false) :
    connectSocket st fresh =
      ({ st with socket := some { sid := fresh, userId := uid, connState := ConnState.Connecting } },
       [Effect.openConn fresh]) := by
  simp [connectSocket, h, hc]

/-- A concrete authenticated store state with a connected socket. -/
def stAuthConn : StoreState :=
  { authUser := some 1, isSigningUp := false, isLoggingIn := false,
    isUpdatingProfile := false, isCheckingAuth := false, onlineUsers := [1, 2],
    socket := some { sid := 5, userId := 1, connState := ConnState.Connected },
    token := some 99 }

/-- A concrete authenticated store state with no socket yet. -/
def stAuthNoSock : StoreState :=
  { stAuthConn with socket := none }

/-- C1: for every sequence of connect and disconnect events applied to the
Server Presence Registry, the OnlineSet broadcast after each insertion or
removal equals the key set of the registry at that moment; no broadcast
reflects a stale set. -/
theorem broadcast_matches_registry (r0 : Registry) (es : List RegEvent)
    (p : Registry × List Nat) (hp : p ∈ regRun r0 es) :
    p.2 = onlineSet p.1 := by
  induction es generalizing r0 with
  | nil => simp [regRun] at hp
  | cons e es ih =>
      rw [regRun] at hp
      rcases List.mem_cons.mp hp with h | h
      · subst h
        cases e <;> rfl
      · exact ih _ h

/-- C1 witness: a concrete run of two connects and one disconnect; the final
broadcast equals the key set of the final registry. -/
theorem broadcast_matches_registry_witness :
    (([{ identity := 2, handle := 20 }], [2]) : Registry × List Nat) ∈
      regRun [] [RegEvent.conn 1 10, RegEvent.conn 2 20, RegEvent.disc 1 10] ∧
    ([2] : List Nat) = onlineSet [{ identity := 2, handle := 20 }] :=
  ⟨by decide,
   broadcast_matches_registry []
     [RegEvent.conn 1 10, RegEvent.conn 2 20, RegEvent.disc 1 10]
     ([{ identity := 2, handle := 20 }], [2]) (by decide)⟩

/-- C2 counterexample: when the server-side invalidation request fails,
logout leaves the state untouched — the token is kept, authUser stays set
and the connection stays up — and only an error toast is surfaced, refuting
the unconditional teardown. -/
theorem logout_fail_keeps_session :
    (logout stAuthConn (HttpResult.err none none)).1 = stAuthConn ∧
    ((logout stAuthConn (HttpResult.err none none)).1).token = some 99 ∧
    ((logout stAuthConn (HttpResult.err none none)).1).authUser = some 1 ∧
    socketConnected (logout stAuthConn (HttpResult.err none none)).1 = true ∧
    (logout stAuthConn (HttpResult.err none none)).2 =
      [Effect.toastError Msg.logoutFailed] := by
  decide

/-- C2 (amended): when the server-side invalidation request succeeds, logout
discards the persisted token, sets authUser to null and tears down the
connection, with exactly one transport close event when a connection was
live and none when already disconnected. -/
theorem logout_success_teardown (st : StoreState) :
    ((logout st (HttpResult.ok ())).1).token = none ∧
    ((logout st (HttpResult.ok ())).1).authUser = none ∧
    socketConnected (logout st (HttpResult.ok ())).1 = false ∧
    ((logout st (HttpResult.ok ())).2).countP Effect.isClose =
      (if socketConnected st then 1 else 0) := by
  cases hs : st.socket with
  | none =>
      simp [logout, disconnectSocket, socketConnected, hs, Effect.isClose,
        List.countP_cons, List.countP_nil]
  | some s =>
      cases hcs : s.connState <;>
        simp [logout, disconnectSocket, socketConnected, Socket.connected, hs,
          hcs, Effect.isClose, List.countP_cons, List.countP_nil]

/-- C3: a connection-level transport failure schedules exactly one
reconnection attempt of the same socket after a fixed 5000 ms delay and
changes no store state; in particular authUser is unchanged, so the session
stays Authenticated. -/
theorem connect_error_single_reconnect (st : StoreState) (sid : Nat) :
    (handleSockEvent st sid SockEvent.connectError).1 = st ∧
    ((handleSockEvent st sid SockEvent.connectError).1).authUser = st.authUser ∧
    (handleSockEvent st sid SockEvent.connectError).2 =
      [Effect.scheduleReconnect sid 5000] :=
  ⟨rfl, rfl, rfl⟩

/-- C4: a checkAuth failure with HTTP status 401 clears the persisted token,
leaves authUser null, completes the auth check, and attempts no connection. -/
theorem checkAuth_invalid_credential (st : StoreState) (msg : Option Nat)
    (fresh : Nat) :
    ((checkAuth st (HttpResult.err (some 401) msg) fresh).1).token = none ∧
    ((checkAuth st (HttpResult.err (some 401) msg) fresh).1).authUser = none ∧
    ((checkAuth st (HttpResult.err (some 401) msg) fresh).1).isCheckingAuth = false ∧
    (checkAuth st (HttpResult.err (some 401) msg) fresh).2 = [] := by
  simp [checkAuth]

/-- C5: checkAuth sets isCheckingAuth to false at completion for every
outcome, success or any failure. -/
theorem checkAuth_always_completes (st : StoreState) (res : HttpResult Nat)
    (fresh : Nat) :
    ((checkAuth st res fresh).1).isCheckingAuth = false := by
  cases res <;> simp [checkAuth]

/-- C6: a failed signup or login from an unauthenticated state leaves the
session unauthenticated, surfaces the server-provided message or the generic
fallback, and attempts no connection. -/
theorem auth_fail_remains_unauthenticated (st : StoreState) (status : Option Nat)
    (msg : Option Nat) (fresh : Nat) (h : st.authUser = none) :
    ((signup st (HttpResult.err status msg) fresh).1).authUser = none ∧
    (signup st (HttpResult.err status msg) fresh).2 =
      [Effect.toastError (surfaced msg Msg.signupFailed)] ∧
    ((login st (HttpResult.err status msg) fresh).1).authUser = none ∧
    (login st (HttpResult.err status msg) fresh).2 =
      [Effect.toastError (surfaced msg Msg.loginFailed)] := by
  simp [signup, login, h]

/-- C6 witness: a concrete failed signup and login from the initial state,
with a server-provided message. -/
theorem auth_fail_remains_unauthenticated_witness :
    initialState.authUser = none ∧
    (((signup initialState (HttpResult.err (some 400) (some 7)) 0).1).authUser = none ∧
     (signup initialState (HttpResult.err (some 400) (some 7)) 0).2 =
       [Effect.toastError (surfaced (some 7) Msg.signupFailed)] ∧
     ((login initialState (HttpResult.err (some 400) (some 7)) 0).1).authUser = none ∧
     (login initialState (HttpResult.err (some 400) (some 7)) 0).2 =
       [Effect.toastError (surfaced (some 7) Msg.loginFailed)]) :=
  ⟨rfl, auth_fail_remains_unauthenticated initialState (some 400) (some 7) 0 rfl⟩

/-- C7: connectSocket is a no-op, leaving the state unchanged and producing
no effect, whenever no identity is authenticated or the existing connection
is already Connected. -/
theorem connectSocket_noop (st : StoreState) (fresh : Nat)
    (h : st.authUser = none ∨ socketConnected st = true) :
    connectSocket st fresh = (st, []) := by
  rcases h with h | h
  · simp [connectSocket, h]
  · cases ha : st.authUser <;> simp [connectSocket, ha, h]

/-- C7 witness: connectSocket on a state with a Connected socket. -/
theorem connectSocket_noop_witness :
    (stAuthConn.authUser = none ∨ socketConnected stAuthConn = true) ∧
    connectSocket stAuthConn 10 = (stAuthConn, []) :=
  ⟨Or.inr (by decide), connectSocket_noop stAuthConn 10 (Or.inr (by decide))⟩

/-- C8 counterexample: from an authenticated state with no socket, calling
connectSocket twice in immediate succession — the second call before the
first connection reaches Connected — opens two underlying connections and
closes neither, refuting the claim that two connections are never created. -/
theorem connectSocket_double_underlying :
    ((connectSocket stAuthNoSock 10).2 ++
      (connectSocket (connectSocket stAuthNoSock 10).1 11).2) =
      [Effect.openConn 10, Effect.openConn 11] ∧
    (((connectSocket stAuthNoSock 10).2 ++
      (connectSocket (connectSocket stAuthNoSock 10).1 11).2).countP
        Effect.isClose) = 0 := by
  decide

/-- C8 (amended): calling connectSocket twice in immediate succession before
the first connection reaches Connected opens a second underlying connection,
because the guard only blocks when the existing socket is already Connected;
the store nevertheless holds at most one ManagedConnection reference at a
time — the second call replaces the stored socket with the newest one. -/
theorem connectSocket_twice_replaces (st : StoreState) (uid f1 f2 : Nat)
    (h : st.authUser = some uid) (hc : socketConnected st = false) :
    ((connectSocket st f1).1).socket =
      some { sid := f1, userId := uid, connState := ConnState.Connecting } ∧
    ((connectSocket (connectSocket st f1).1 f2).1).socket =
      some { sid := f2, userId := uid, connState := ConnState.Connecting } ∧
    (connectSocket st f1).2 = [Effect.openConn f1] ∧
    (connectSocket (connectSocket st f1).1 f2).2 = [Effect.openConn f2] := by
  have h1 := connectSocket_opens st uid f1 h hc
  have h2 := connectSocket_opens
    { st with socket := some { sid := f1, userId := uid, connState := ConnState.Connecting } }
    uid f2 h rfl
  refine ⟨?_, ?_, ?_, ?_⟩
  · rw [h1]
  · rw [h1, h2]
  · rw [h1]
  · rw [h1, h2]

/-- C8 witness for the amended claim: two immediate calls from a concrete
authenticated state without a socket. -/
theorem connectSocket_twice_replaces_witness :
    (stAuthNoSock.authUser = some 1 ∧ socketConnected stAuthNoSock = false) ∧
    (((connectSocket stAuthNoSock 10).1).socket =
       some { sid := 10, userId := 1, connState := ConnState.Connecting } ∧
     ((connectSocket (connectSocket stAuthNoSock 10).1 11).1).socket =
       some { sid := 11, userId := 1, connState := ConnState.Connecting } ∧
     (connectSocket stAuthNoSock 10).2 = [Effect.openConn 10] ∧
     (connectSocket (connectSocket stAuthNoSock 10).1 11).2 =
       [Effect.openConn 11]) :=
  ⟨⟨rfl, rfl⟩, connectSocket_twice_replaces stAuthNoSock 1 10 11 rfl rfl⟩

/-- C9: disconnectSocket is idempotent — a second call after a first one
changes nothing and emits no effect, the two calls together observe one
close event exactly when a connection was live, and the call is a complete
no-op when no connection is live. -/
theorem disconnectSocket_idempotent (st : StoreState) :
    disconnectSocket (disconnectSocket st).1 = ((disconnectSocket st).1, []) ∧
    ((disconnectSocket st).2).countP Effect.isClose =
      (if socketConnected st then 1 else 0) ∧
    (socketConnected st = false → disconnectSocket st = (st, [])) := by
  cases hs : st.socket with
  | none => simp [disconnectSocket, socketConnected, hs]
  | some s =>
      cases hcs : s.connState <;>
        simp [disconnectSocket, socketConnected, Socket.connected, hs, hcs,
          Effect.isClose, List.countP_cons, List.countP_nil]

/-- C9 witness: idempotence at a concrete connected state. -/
theorem disconnectSocket_idempotent_witness :
    disconnectSocket (disconnectSocket stAuthConn).1 =
      ((disconnectSocket stAuthConn).1, []) ∧
    ((disconnectSocket stAuthConn).2).countP Effect.isClose =
      (if socketConnected stAuthConn then 1 else 0) ∧
    (socketConnected stAuthConn = false →
      disconnectSocket stAuthConn = (stAuthConn, [])) :=
  disconnectSocket_idempotent stAuthConn

/-- C10: a failed login or signup in a state where a user is already
authenticated leaves authUser, the persisted token, the socket and
onlineUsers unchanged. -/
theorem auth_fail_frame (st : StoreState) (uid : Nat) (status : Option Nat)
    (msg : Option Nat) (fresh : Nat) (h : st.authUser = some uid) :
    ((login st (HttpResult.err status msg) fresh).1).authUser = st.authUser ∧
    ((login st (HttpResult.err status msg) fresh).1).token = st.token ∧
    ((login st (HttpResult.err status msg) fresh).1).socket = st.socket ∧
    ((login st (HttpResult.err status msg) fresh).1).onlineUsers = st.onlineUsers ∧
    ((signup st (HttpResult.err status msg) fresh).1).authUser = st.authUser ∧
    ((signup st (HttpResult.err status msg) fresh).1).token = st.token ∧
    ((signup st (HttpResult.err status msg) fresh).1).socket = st.socket ∧
    ((signup st (HttpResult.err status msg) fresh).1).onlineUsers = st.onlineUsers := by
  simp [login, signup]

/-- C10 witness: a failed login and signup at a concrete authenticated state
leave the session fields unchanged. -/
theorem auth_fail_frame_witness :
    stAuthConn.authUser = some 1 ∧
    (((login stAuthConn (HttpResult.err (some 500) none) 7).1).authUser =
        stAuthConn.authUser ∧
     ((login stAuthConn (HttpResult.err (some 500) none) 7).1).token =
        stAuthConn.token ∧
     ((login stAuthConn (HttpResult.err (some 500) none) 7).1).socket =
        stAuthConn.socket ∧
     ((login stAuthConn (HttpResult.err (some 500) none) 7).1).onlineUsers =
        stAuthConn.onlineUsers ∧
     ((signup stAuthConn (HttpResult.err (some 500) none) 7).1).authUser =
        stAuthConn.authUser ∧
     ((signup stAuthConn (HttpResult.err (some 500) none) 7).1).token =
        stAuthConn.token ∧
     ((signup stAuthConn (HttpResult.err (some 500) none) 7).1).socket =
        stAuthConn.socket ∧
     ((signup stAuthConn (HttpResult.err (some 500) none) 7).1).onlineUsers =
        stAuthConn.onlineUsers) :=
  ⟨rfl, auth_fail_frame stAuthConn 1 (some 500) none 7 rfl⟩

end SkyNow
